import Mathlib

/-!
Shallow embedding of the `cottage-tandoori-simple-printer` repository
(thermal receipt rendering and print dispatch), together with proofs that
settle the specification claims against the code.

The repository's `src/server.js` bundles several variants of the printing
service, separated by markers:
* variant 1 (lines 1-749): the "Rich Template Printer v3.1.0" with
  `processRichTemplate`, `formatReceipt`, `generateThermalQR` and the
  Supabase job poller (`processPrintJob`).  Embedded in namespace `Server`.
* variant 3 (lines 1036-1378): the `node-thermal-printer` based service with
  the thermal-then-Windows fallback in its `/print/kitchen` route.  Embedded
  in namespace `Thermal`.
`src/index.js` is the Windows-first helper with the `WindowsPrintFormatter`
layout engine; embedded in namespace `IndexJs`.

Modelling conventions, used throughout:
* Money: the source stores amounts as JavaScript numbers of pounds and
  formats them with `toFixed(2)`.  Amounts are modelled as exact hundredths
  (integer pence, `Int`); on every amount appearing in the claims the
  source's binary floating point agrees with this exact-decimal semantics
  after `toFixed(2)` rounding.
* JavaScript truthiness on optional strings (`if (x)` for a string field)
  is modelled by `strTruthy`: present and non-empty.  Truthiness on
  optional numbers is `intTruthy`: present and non-zero.
* Asynchronous I/O (the QR library, the Supabase RPCs, the OS print
  commands) is modelled by explicit oracles: a function argument giving the
  outcome of each external call, so a run of the stateful code becomes a
  pure function of its oracle environment.
* `String.toUpperCase` is modelled by `asciiUpper` (all strings upper-cased
  by the source in the claims are ASCII).
-/

set_option maxRecDepth 40000

/-! Generic string infrastructure.  Everything is kept on `List Char`
(`String.data`) so that concrete instances reduce in the kernel. -/

def spacesStr (n : Nat) : String := String.mk (List.replicate n ' ')

def strJoin : List String → String
  | [] => ""
  | s :: rest => s ++ strJoin rest

def takeStr (n : Nat) (s : String) : String := String.mk (s.data.take n)

def asciiUpperChar (c : Char) : Char :=
  if 'a' ≤ c ∧ c ≤ 'z' then Char.ofNat (c.toNat - 32) else c

def asciiUpper (s : String) : String := String.mk (s.data.map asciiUpperChar)

/-- Model of JavaScript `x.toFixed(2)` for an amount held in exact pence. -/
def toFixed2 (pence : Int) : String :=
  let pounds := pence / 100
  let rem := (pence % 100).toNat
  toString pounds ++ "." ++ (if rem < 10 then "0" else "") ++ toString rem

/-- Model of JavaScript `opt || dflt` for an optional string field. -/
def strOr (o : Option String) (dflt : String) : String :=
  match o with
  | some s => if s.isEmpty then dflt else s
  | none => dflt

/-- JavaScript truthiness of an optional string field. -/
def strTruthy : Option String → Bool
  | some s => !s.isEmpty
  | none => false

/-- JavaScript truthiness of an optional numeric (pence) field. -/
def intTruthy : Option Int → Bool
  | some v => v != 0
  | none => false

/-- Model of JavaScript `quantity || 1` (an absent or zero quantity counts 1). -/
def qtyOr1 : Option Nat → Nat
  | none => 1
  | some 0 => 1
  | some n => n

/-- The substring relation on strings, as infix of the character lists. -/
def IsSubstr (p s : String) : Prop := p.data <:+: s.data

instance (p s : String) : Decidable (IsSubstr p s) :=
  List.decidableInfix p.data s.data

/-- Executable containment check, tail recursive so that large concrete
instances evaluate in constant stack space. -/
def containsAt (pat : List Char) : List Char → Bool
  | [] => pat.isPrefixOf []
  | c :: rest => pat.isPrefixOf (c :: rest) || containsAt pat rest

theorem containsAt_iff (pat : List Char) :
    ∀ s : List Char, containsAt pat s = true ↔ pat <:+: s := by
  intro s
  induction s with
  | nil =>
    rw [containsAt, List.isPrefixOf_iff_prefix, List.prefix_nil, List.infix_nil]
  | cons c rest ih =>
    rw [containsAt, Bool.or_eq_true, List.isPrefixOf_iff_prefix,
      List.infix_cons_iff, ih]

theorem isSubstr_iff_containsAt (p s : String) :
    IsSubstr p s ↔ containsAt p.data s.data = true :=
  (containsAt_iff p.data s.data).symm

theorem dataAppend (a b : String) : (a ++ b).data = a.data ++ b.data := rfl

theorem isSubstr_refl (p : String) : IsSubstr p p := List.infix_refl _

theorem isSubstr_append_left {p s : String} (t : String) (h : IsSubstr p s) :
    IsSubstr p (t ++ s) := by
  unfold IsSubstr at *
  rw [dataAppend]
  exact h.trans ((List.suffix_append t.data s.data).isInfix)

theorem isSubstr_append_right {p s : String} (t : String) (h : IsSubstr p s) :
    IsSubstr p (s ++ t) := by
  unfold IsSubstr at *
  rw [dataAppend]
  exact h.trans ((List.prefix_append s.data t.data).isInfix)

theorem isSubstr_middle (x p y : String) : IsSubstr p (x ++ p ++ y) :=
  isSubstr_append_right y (isSubstr_append_left x (isSubstr_refl p))

theorem isSubstr_right_self (x p : String) : IsSubstr p (x ++ p) :=
  isSubstr_append_left x (isSubstr_refl p)

theorem isSubstr_trans {a b c : String} (h₁ : IsSubstr a b) (h₂ : IsSubstr b c) :
    IsSubstr a c := List.IsInfix.trans h₁ h₂

theorem strJoin_substr_of_mem {α : Type} (f : α → String) {x : α} :
    ∀ {l : List α}, x ∈ l → IsSubstr (f x) (strJoin (l.map f))
  | [], h => absurd h (List.not_mem_nil x)
  | a :: as, h => by
    rcases List.mem_cons.mp h with heq | hmem
    · subst heq
      exact isSubstr_append_right _ (isSubstr_refl (f x))
    · exact isSubstr_append_left (f a) (strJoin_substr_of_mem f hmem)

/-- Removal of the first newline, as JavaScript `text.replace('\n', '')`. -/
def removeFirstNewline : List Char → List Char
  | [] => []
  | c :: rest => if c = '\n' then rest else c :: removeFirstNewline rest

theorem removeFirstNewline_append_nl {l : List Char} (h : '\n' ∉ l) :
    removeFirstNewline (l ++ ['\n']) = l := by
  induction l with
  | nil => rfl
  | cons c rest ih =>
    have hc : c ≠ '\n' := fun hcn => h (hcn ▸ List.mem_cons_self c rest)
    have hrest : '\n' ∉ rest := fun hn => h (List.mem_cons_of_mem c hn)
    simp [removeFirstNewline, hc, ih hrest]

/-- Splitting a character list into newline-separated lines. -/
def splitLines : List Char → List (List Char)
  | [] => [[]]
  | c :: rest =>
    match splitLines rest with
    | [] => [[]]
    | fst :: others =>
      if c = '\n' then [] :: fst :: others else (c :: fst) :: others

/-- Model of JavaScript `text.replace(/[A-Z0-9]/g, char => char + char)`. -/
def doubleCaps : List Char → List Char
  | [] => []
  | c :: rest =>
    (if ('A' ≤ c && c ≤ 'Z') || ('0' ≤ c && c ≤ '9') then [c, c] else [c]) ++
      doubleCaps rest

/-- Model of JavaScript `s.padStart(n)` (spaces). -/
def padStartSpaces (n : Nat) (s : String) : String :=
  spacesStr (n - s.length) ++ s

/-- Model of JavaScript `s.padEnd(n)` (spaces). -/
def padEndSpaces (n : Nat) (s : String) : String :=
  s ++ spacesStr (n - s.length)

namespace Server

/-! Embedding of `src/server.js`, variant 1 (Rich Template Printer v3.1.0). -/

/-- ESC/POS command strings, from the `ESC_POS` table (`src/server.js` 68-93). -/
def INIT : String := "\x1B@"

def FEED_LINE : String := "\n"

def CUT : String := "\x1DV\x00"

def BOLD_ON : String := "\x1BE1"

def BOLD_OFF : String := "\x1BE0"

def ALIGN_LEFT : String := "\x1Ba0"

def ALIGN_CENTER : String := "\x1Ba1"

def ALIGN_RIGHT : String := "\x1Ba2"

def FONT_SIZE_NORMAL : String := "\x1D!0"

def FONT_SIZE_DOUBLE : String := "\x1D!17"

def LINE_SPACING_24 : String := "\x1B3\x18"

/-- A QR specification of a rich template (`header_qr_codes` / `footer_qr_codes`
entries): a type tag, a content string, a size class and an enabled flag. -/
structure QRSpec where
  type : String
  content : String
  size : Option String
  enabled : Bool

/-- The member names of `Object.prototype` (ECMAScript standard set, as in
Node's V8): property lookup on the object literal `qrSizes` traverses the
prototype chain, so `qrSizes[size]` for these names yields the inherited
member (a function, or `Object.prototype` itself for `__proto__`) — a
truthy, non-numeric value — instead of `undefined`. -/
def objectProtoKeys : List String :=
  ["constructor", "toString", "toLocaleString", "valueOf", "hasOwnProperty",
    "isPrototypeOf", "propertyIsEnumerable", "__defineGetter__",
    "__defineSetter__", "__lookupGetter__", "__lookupSetter__", "__proto__"]

/-- The JavaScript value `generateThermalQR` passes as the QR width: a
number, or the truthy non-numeric value inherited from `Object.prototype`
when the size class names one of its members. -/
inductive JsWidth where
  | num (n : Nat)
  | proto (key : String)
deriving DecidableEq, Repr

/-- Width selected by `generateThermalQR` from the size class
(`const qrSizes = { small: 64, medium: 128, large: 192 }` and
`qrSizes[size] || qrSizes.medium`; the JS default parameter `'medium'`
covers an absent argument).  For an own key the numeric size is used; for an
`Object.prototype` member name the lookup yields the inherited truthy value,
so the `||` fallback does not fire and that value is passed as the width;
for every other string the lookup is `undefined` and the fallback yields
128. -/
def qrSizeOf : Option String → JsWidth
  | none => .num 128
  | some s =>
    if s = "small" then .num 64
    else if s = "medium" then .num 128
    else if s = "large" then .num 192
    else if s ∈ objectProtoKeys then .proto s
    else .num 128

/-- Outcome oracle for the external `QRCode.toString` library call: given the
content and the width value, `some` ASCII art on success, `none` on
failure. -/
def QrEnc : Type := String → JsWidth → Option String

/-- Embedding of `generateThermalQR` (`src/server.js` 96-114): on encoder
failure the catch block returns the textual placeholder
`[QR: content.substring(0, 20)...]`. -/
def generateThermalQR (enc : QrEnc) (content : String) (size : Option String) :
    String :=
  match enc content (qrSizeOf size) with
  | some qrString => qrString
  | none => "[QR: " ++ takeStr 20 content ++ "...]"

/-- Embedding of `generateLogoPlaceholder` (`src/server.js` 117-123). -/
def generateLogoPlaceholder (business_name : Option String) : String :=
  let name := strOr business_name "RESTAURANT"
  let width := max (name.length + 4) 30
  let line := String.mk (List.replicate width '=')
  line ++ "\n|  " ++
    padEndSpaces (width - 4) (padStartSpaces (width - 4) (asciiUpper name)) ++
    "  |\n" ++ line

/-- The rich template input (`ThermalReceiptData`), with the fields read by
`processRichTemplate`.  An absent `header_qr_codes` / `footer_qr_codes` array
and an empty one produce identical output, so both are the empty list here. -/
structure TemplateData where
  business_name : Option String
  logo_image : Option String
  address : Option String
  phone : Option String
  email : Option String
  website : Option String
  header_qr_codes : List QRSpec
  receipt_number : Option String
  order_date : Option String
  customer_name : Option String
  order_type : Option String
  table_number : Option String
  footer_message : Option String
  footer_qr_codes : List QRSpec
  vat_number : Option String

/-- A rich template with every optional field absent and no QR codes. -/
def emptyTemplate : TemplateData :=
  ⟨none, none, none, none, none, none, [], none, none, none, none, none,
    none, [], none⟩

/-- One centered optional line (`receipt += ALIGN_CENTER; receipt += label +
field + FEED_LINE` guarded by the field's truthiness). -/
def centeredLine (label : String) (field : Option String) : String :=
  if strTruthy field then ALIGN_CENTER ++ label ++ field.getD "" ++ FEED_LINE
  else ""

/-- Header section of `processRichTemplate` (`src/server.js` 134-149):
centered business name, as ASCII logo art when `logo_image` is set, else as
double-size bold text. -/
def headerSection (t : TemplateData) : String :=
  if strTruthy t.business_name then
    ALIGN_CENTER ++
      (if strTruthy t.logo_image then
        generateLogoPlaceholder t.business_name ++ FEED_LINE
      else
        FONT_SIZE_DOUBLE ++ BOLD_ON ++ t.business_name.getD "" ++ FEED_LINE ++
          BOLD_OFF ++ FONT_SIZE_NORMAL)
  else ""

/-- Business detail lines of `processRichTemplate` (`src/server.js` 151-170):
each present field is emitted centered, with `ALIGN_CENTER` re-emitted before
every line. -/
def businessDetails (t : TemplateData) : String :=
  centeredLine "" t.address ++ centeredLine "Tel: " t.phone ++
    centeredLine "" t.email ++ centeredLine "" t.website

/-- One header-zone QR block (`src/server.js` 173-192): title, ASCII QR (or
the textual fallback), and a `Content:` echo for short contents. -/
def headerQrBlock (enc : QrEnc) (qr : QRSpec) : String :=
  if qr.enabled && !qr.content.isEmpty then
    FEED_LINE ++ ALIGN_CENTER ++
      "--- " ++ asciiUpper qr.type ++ " QR CODE ---" ++ FEED_LINE ++
      generateThermalQR enc qr.content qr.size ++ FEED_LINE ++
      (if qr.content.length < 50 then "Content: " ++ qr.content ++ FEED_LINE
       else "")
  else ""

/-- One footer-zone QR block (`src/server.js` 239-257). -/
def footerQrBlock (enc : QrEnc) (qr : QRSpec) : String :=
  if qr.enabled && !qr.content.isEmpty then
    FEED_LINE ++ ALIGN_CENTER ++
      "--- " ++ asciiUpper qr.type ++ " QR ---" ++ FEED_LINE ++
      generateThermalQR enc qr.content qr.size ++ FEED_LINE ++
      (if qr.content.length < 30 then qr.content ++ FEED_LINE else "")
  else ""

/-- One bold optional line of the order-information section. -/
def boldLine (label : String) (field : Option String) : String :=
  if strTruthy field then
    BOLD_ON ++ label ++ field.getD "" ++ FEED_LINE ++ BOLD_OFF
  else ""

/-- One plain optional line of the order-information section. -/
def plainLine (label : String) (field : Option String) : String :=
  if strTruthy field then label ++ field.getD "" ++ FEED_LINE else ""

/-- Order-information section of `processRichTemplate`
(`src/server.js` 201-221). -/
def orderInfo (t : TemplateData) : String :=
  boldLine "Order #: " t.receipt_number ++
    plainLine "Date: " t.order_date ++
    plainLine "Customer: " t.customer_name ++
    (if strTruthy t.order_type then
      "Type: " ++ asciiUpper (t.order_type.getD "") ++ FEED_LINE
    else "") ++
    plainLine "Table: " t.table_number

/-- Embedding of `processRichTemplate` (`src/server.js` 126-276): the
sequential `receipt +=` blocks of the source, in source order.  The items
section is an unconditional placeholder (`ITEMS:` heading plus the
`** ORDER ITEMS WILL BE INSERTED HERE **` line).  The translated body has no
throwing sub-step (`generateThermalQR` catches its own failure), so the
source's `catch { return null }` path is unreachable and the result is a
plain `String`. -/
def processRichTemplate (enc : QrEnc) (t : TemplateData) : String :=
  INIT ++ LINE_SPACING_24 ++
  headerSection t ++
  businessDetails t ++
  strJoin (t.header_qr_codes.map (headerQrBlock enc)) ++
  FEED_LINE ++ ALIGN_CENTER ++ "================================" ++ FEED_LINE ++
  ALIGN_LEFT ++
  orderInfo t ++
  "--------------------------------" ++ FEED_LINE ++
  BOLD_ON ++ "ITEMS:" ++ FEED_LINE ++ BOLD_OFF ++
  "** ORDER ITEMS WILL BE INSERTED HERE **" ++ FEED_LINE ++
  "--------------------------------" ++ FEED_LINE ++
  centeredLine "" t.footer_message ++
  strJoin (t.footer_qr_codes.map (footerQrBlock enc)) ++
  centeredLine "VAT: " t.vat_number ++
  ALIGN_CENTER ++ "================================" ++ FEED_LINE ++
  FEED_LINE ++ CUT

/-! The simple (backward-compatibility) customer receipt path of
`formatReceipt` (`src/server.js` 279-359, `type === 'receipt'` branch). -/

/-- A line item of the simple customer-receipt input.  `price` is pence;
`quantity` is optional, `quantity || 1` applies. -/
structure SItem where
  name : Option String
  price : Option Int
  quantity : Option Nat

/-- The simple customer-receipt input body.  `subtotal` and `total` may be
supplied in the JSON body but are never read by the formatter (the source
accesses only `orderNumber`, `items`, `tax` and `deliveryFee`). -/
structure ReceiptData where
  orderNumber : Option String
  items : Option (List SItem)
  tax : Option Int
  deliveryFee : Option Int
  subtotal : Option Int
  total : Option Int

/-- Item total of the simple formatter:
`parseFloat(item.price || 0) * parseInt(item.quantity || 1)`. -/
def sItemTotal (it : SItem) : Int := it.price.getD 0 * (qtyOr1 it.quantity : Int)

/-- One item line of the simple formatter (`src/server.js` 336-337):
`${quantity}x ${item.name || 'Item'} £${itemTotal.toFixed(2)}\n`. -/
def sItemLine (it : SItem) : String :=
  toString (qtyOr1 it.quantity) ++ "x " ++ strOr it.name "Item" ++
    " £" ++ toFixed2 (sItemTotal it) ++ "\n"

/-- The recomputed subtotal (`subtotal += itemTotal` over the items). -/
def itemsSubtotal (items : List SItem) : Int :=
  items.foldl (fun acc it => acc + sItemTotal it) 0

/-- Embedding of the customer-receipt branch of `formatReceipt`
(`src/server.js` 318-358).  `now` stands for `new Date().toLocaleString()`. -/
def formatReceiptCustomer (now : String) (data : ReceiptData) : String :=
  "COTTAGE TANDOORI\n" ++
  "123 Restaurant Street\n" ++
  "Phone: (555) 123-4567\n" ++
  "================================\n" ++
  "Order #" ++ strOr data.orderNumber "N/A" ++ "\n" ++
  now ++ "\n" ++
  "--------------------------------\n" ++
  (match data.items with
   | some items =>
     strJoin (items.map sItemLine) ++
     "--------------------------------\n" ++
     "Subtotal: £" ++ toFixed2 (itemsSubtotal items) ++ "\n" ++
     (if intTruthy data.tax then
       "Tax: £" ++ toFixed2 (data.tax.getD 0) ++ "\n"
     else "") ++
     (if intTruthy data.deliveryFee then
       "Delivery: £" ++ toFixed2 (data.deliveryFee.getD 0) ++ "\n"
     else "") ++
     "TOTAL: £" ++
       toFixed2 (itemsSubtotal items + data.tax.getD 0 +
         data.deliveryFee.getD 0) ++ "\n"
   | none => "") ++
  "================================\n" ++
  "Thank you for your order!\n" ++
  "Visit us again soon!\n"

/-! The Supabase job poller (`processPrintJob`, `src/server.js` 403-469).
The stateful run is modelled as a pure function of an oracle environment
describing the outcome of each external call, returning the sequence of
`update_print_job_status` RPC calls the processor issues. -/

/-- Print-job status values reported through `update_print_job_status`. -/
inductive JStatus
  | PRINTING
  | COMPLETED
  | FAILED
deriving DecidableEq, Repr

/-- One attempted status-update RPC: the status sent and whether the RPC
itself succeeded. -/
structure Update where
  status : JStatus
  ok : Bool
deriving DecidableEq, Repr

/-- Oracle environment for one `processPrintJob` run:
* `markPrintingThrows` — the `PRINTING` status update throws;
* `parseThrows` — `JSON.parse(job.print_data)` throws;
* `formatOk` — the result of `formatReceipt` (`none` models the `null`
  return of a failed rich-template run);
* `printError` — the error handed to the `printToWindows` callback
  (`none` is success);
* `markFailedThrows` — the `FAILED` status update issued from the catch
  block throws as well. -/
structure JobEnv where
  markPrintingThrows : Bool
  parseThrows : Bool
  formatOk : Option String
  printError : Option String
  markFailedThrows : Bool

/-- Embedding of `processPrintJob` (`src/server.js` 403-469) as the sequence
of status updates it issues.  The body runs inside `try { ... } catch` whose
handler reports `FAILED` (itself guarded by an inner try that only logs);
the success/failure updates of the print callback run outside that
try/catch. -/
def processPrintJob (env : JobEnv) : List Update :=
  if env.markPrintingThrows then
    [⟨.PRINTING, false⟩, ⟨.FAILED, !env.markFailedThrows⟩]
  else
    ⟨.PRINTING, true⟩ ::
    (if env.parseThrows then [⟨.FAILED, !env.markFailedThrows⟩]
     else
       match env.formatOk with
       | none => [⟨.FAILED, !env.markFailedThrows⟩]
       | some _ =>
         match env.printError with
         | some _ => [⟨.FAILED, true⟩]
         | none => [⟨.COMPLETED, true⟩])

end Server

namespace Thermal

/-! Embedding of `src/server.js`, variant 3 (`node-thermal-printer` based):
the `/print/kitchen` route (lines 1184-1248) with its thermal-then-Windows
fallback.  External outcomes are oracles. -/

/-- Oracle environment for one `/print/kitchen` dispatch:
* `initFails` — `initializePrinter` returns `null`, so
  `formatKitchenTicket` throws `'Failed to initialize printer'`;
* `connected` — `printer.isPrinterConnected()` resolves true;
* `windowsError` — the error message with which `printToWindowsPrinter`
  rejects (`none` is success). -/
structure DispatchEnv where
  initFails : Bool
  connected : Bool
  windowsError : Option String

/-- Response of the `/print/kitchen` route: 400 on missing items, success
attributed to a method, or the 500 failure body carrying a single error
message. -/
inductive KResp
  | badRequest (err : String)
  | thermalSuccess
  | windowsSuccess
  | failure (err : String)
deriving DecidableEq, Repr

/-- The error messages carried by a response (empty unless it is the 500
failure body, which holds exactly one message). -/
def errorsOf : KResp → List String
  | .failure e => [e]
  | _ => []

/-- The message of the thermal attempt's failure, when it fails:
`formatKitchenTicket` throws on a failed printer init, and the route throws
`'Thermal printer not connected'` when the connectivity probe is false. -/
def thermalError (env : DispatchEnv) : Option String :=
  if env.initFails then some "Failed to initialize printer"
  else if !env.connected then some "Thermal printer not connected"
  else none

/-- Embedding of the `/print/kitchen` route handler
(`src/server.js` 1184-1248): validate items, try the thermal printer, fall
back to the Windows print command on any thermal error, and on a Windows
failure reach the outer catch, whose 500 body carries only that last
error's message. -/
def printKitchen (items : Option (List String)) (env : DispatchEnv) : KResp :=
  match items with
  | none => .badRequest "Invalid order data: items array required"
  | some _ =>
    match thermalError env with
    | none => .thermalSuccess
    | some _ =>
      match env.windowsError with
      | none => .windowsSuccess
      | some e => .failure e

end Thermal

namespace IndexJs

/-! Embedding of `src/index.js`: the `WindowsPrintFormatter` layout engine
(lines 106-222) and the two template formatters built on it
(`formatKitchenTicket`, lines 225-284, and `formatCustomerReceipt`,
lines 287-349). -/

/-- Alignment state of the formatter. -/
inductive Align
  | left
  | center
  | right
deriving DecidableEq, Repr

/-- Text-size state of the formatter (`'normal'` / `'large'`). -/
inductive TSize
  | normal
  | large
deriving DecidableEq, Repr

/-- One entry of the formatter's `content` array. -/
inductive PItem
  | text (content : String) (alignment : Align) (size : TSize) (bold : Bool)
  | cutMark
  | drawer
deriving DecidableEq, Repr

/-- The `WindowsPrintFormatter` object state. -/
structure Fmt where
  content : List PItem
  currentAlignment : Align
  currentSize : TSize
  currentBold : Bool
deriving Repr

/-- The constructor state: empty content, `left` / `normal` / not bold. -/
def Fmt.new : Fmt := ⟨[], .left, .normal, false⟩

/-- `init()` clears the content array (the mode state is kept). -/
def Fmt.init (f : Fmt) : Fmt := { f with content := [] }

/-- `text(str)` pushes a text entry tagged with the current mode state. -/
def Fmt.text (f : Fmt) (s : String) : Fmt :=
  { f with content :=
      f.content ++ [.text s f.currentAlignment f.currentSize f.currentBold] }

/-- `println(str)` is `text(str + '\n')`. -/
def Fmt.println (f : Fmt) (s : String) : Fmt := f.text (s ++ "\n")

def Fmt.alignLeft (f : Fmt) : Fmt := { f with currentAlignment := .left }

def Fmt.alignCenter (f : Fmt) : Fmt := { f with currentAlignment := .center }

def Fmt.alignRight (f : Fmt) : Fmt := { f with currentAlignment := .right }

def Fmt.bold (f : Fmt) (enabled : Bool) : Fmt := { f with currentBold := enabled }

/-- `setTextSize(width, height)`: large when either factor exceeds 1. -/
def Fmt.setTextSize (f : Fmt) (w h : Nat) : Fmt :=
  { f with currentSize := if 1 < w ∨ 1 < h then .large else .normal }

/-- `drawLine(char)`: a 48-character separator line (48 columns for 80mm
thermal paper). -/
def Fmt.drawLine (f : Fmt) (c : Char) : Fmt :=
  f.println (String.mk (List.replicate 48 c))

def Fmt.newLine (f : Fmt) : Fmt := f.println ""

/-- `cut()` pushes a cut entry rendered as three blank lines. -/
def Fmt.cutMark (f : Fmt) : Fmt := { f with content := f.content ++ [.cutMark] }

/-- Visible length used by `generateText`:
`text.replace('\n', '').length` (only the first newline is removed). -/
def visibleLength (content : String) : Nat :=
  (removeFirstNewline content.data).length

/-- Center padding of `generateText` (`src/index.js` 202):
`Math.max(0, Math.floor((48 - visible) / 2))`. -/
def centerPad (visible : Nat) : Nat :=
  (max 0 ((48 - (visible : Int)).fdiv 2)).toNat

/-- Right padding of `generateText` (`src/index.js` 205):
`Math.max(0, 48 - visible)`. -/
def rightPad (visible : Nat) : Nat :=
  (max 0 (48 - (visible : Int))).toNat

/-- Rendering of one content entry by `generateText`
(`src/index.js` 196-218): alignment padding first, then the bold-and-large
character doubling applied to the padded text; cut entries contribute their
spacing, drawer entries nothing. -/
def renderItem : PItem → String
  | .cutMark => "\n\n\n"
  | .drawer => ""
  | .text content alignment size boldFlag =>
    let padded : String :=
      match alignment with
      | .center => spacesStr (centerPad (visibleLength content)) ++ content
      | .right => spacesStr (rightPad (visibleLength content)) ++ content
      | .left => content
    if boldFlag && size == .large then String.mk (doubleCaps padded.data)
    else padded

/-- Embedding of `WindowsPrintFormatter.generateText`
(`src/index.js` 193-221). -/
def Fmt.generateText (f : Fmt) : String := strJoin (f.content.map renderItem)

/-- A modifier of an order item (`price` in pence when present). -/
structure Modifier where
  name : String
  price : Option Int

/-- An order item as read by the two formatters.  `quantity` and `name` are
required by the POSII request schema; `price` is pence. -/
structure OrderItem where
  name : String
  quantity : Nat
  price : Option Int
  modifiers : Option (List Modifier)
  specialInstructions : Option String

/-- The order payload of the `/print/kitchen` and `/print/receipt` routes. -/
structure OrderData where
  orderNumber : Option String
  orderType : Option String
  items : Option (List OrderItem)
  specialInstructions : Option String

/-- One item block of `formatKitchenTicket` (`src/index.js` 250-264). -/
def kitchenItemBlock (f : Fmt) (it : OrderItem) : Fmt :=
  let f := f.println (toString it.quantity ++ "x " ++ it.name)
  let f :=
    match it.modifiers with
    | some mods =>
      if 0 < mods.length then
        mods.foldl (fun (f : Fmt) (m : Modifier) => f.println ("  + " ++ m.name)) f
      else f
    | none => f
  let f :=
    match it.specialInstructions with
    | some si => if si.isEmpty then f else f.println ("  * " ++ si)
    | none => f
  f.newLine

/-- Embedding of `formatKitchenTicket` (`src/index.js` 225-284).  `now`
stands for `new Date().toLocaleTimeString()`.  The `ITEMS:` heading and the
item blocks are emitted only when the items array is present and
non-empty. -/
def formatKitchenTicket (now : String) (o : OrderData) : String :=
  let f := Fmt.new.init.alignCenter.setTextSize 1 1 |>.bold true
    |>.println "COTTAGE TANDOORI" |>.println "KITCHEN ORDER" |>.bold false
    |>.drawLine '-' |>.alignLeft |>.newLine |>.bold true
    |>.println ("Order #: " ++ strOr o.orderNumber "N/A")
    |>.println ("Type: " ++ strOr o.orderType "DINE-IN")
    |>.bold false
    |>.println ("Time: " ++ now)
    |>.drawLine '-' |>.newLine
  let f :=
    match o.items with
    | some items =>
      if 0 < items.length then
        items.foldl kitchenItemBlock
          ((f.bold true).println "ITEMS:" |>.bold false)
      else f
    | none => f
  let f :=
    match o.specialInstructions with
    | some si =>
      if si.isEmpty then f
      else
        f.drawLine '-' |>.bold true |>.println "SPECIAL INSTRUCTIONS:"
          |>.bold false |>.println si |>.newLine
    | none => f
  (f.drawLine '-' |>.alignCenter |>.println "Thank you!" |>.newLine
    |>.cutMark).generateText

/-- One item block of `formatCustomerReceipt` (`src/index.js` 313-330),
threading the running total: the quantity-and-name line, then the price on
its own right-aligned line, then the modifier lines.  A priced modifier adds
`mod.price * item.quantity` to the total. -/
def customerItemBlock (acc : Fmt × Int) (it : OrderItem) : Fmt × Int :=
  let itemTotal : Int := it.price.getD 0 * ((qtyOr1 (some it.quantity)) : Int)
  let f := acc.1
  let total := acc.2 + itemTotal
  let f := ((f.println (toString it.quantity ++ "x " ++ it.name)).alignRight.println
      ("£" ++ toFixed2 itemTotal)).alignLeft
  match it.modifiers with
  | some mods =>
    if 0 < mods.length then
      mods.foldl
        (fun (acc : Fmt × Int) m =>
          let f := acc.1.println ("  + " ++ m.name)
          let total :=
            match m.price with
            | some p => if p = 0 then acc.2 else acc.2 + p * (it.quantity : Int)
            | none => acc.2
          (f, total))
        (f, total)
    else (f, total)
  | none => (f, total)

/-- Embedding of `formatCustomerReceipt` (`src/index.js` 287-349).
`nowDate` / `nowTime` stand for `new Date().toLocaleDateString()` /
`toLocaleTimeString()`. -/
def formatCustomerReceipt (nowDate nowTime : String) (o : OrderData) : String :=
  let f := Fmt.new.init.alignCenter.setTextSize 2 2 |>.bold true
    |>.println "COTTAGE TANDOORI" |>.bold false |>.setTextSize 1 1
    |>.println "Authentic Indian Cuisine"
    |>.println "Tel: 01234 567890"
    |>.drawLine '-' |>.alignLeft |>.newLine
    |>.println ("Receipt #: " ++ strOr o.orderNumber "N/A")
    |>.println ("Date: " ++ nowDate)
    |>.println ("Time: " ++ nowTime)
    |>.println ("Type: " ++ strOr o.orderType "DINE-IN")
    |>.drawLine '-' |>.newLine
  let f :=
    match o.items with
    | some items =>
      if 0 < items.length then
        let ft := items.foldl customerItemBlock (f, 0)
        ((ft.1.drawLine '-').alignRight.bold true).println
            ("TOTAL: £" ++ toFixed2 ft.2)
          |>.bold false |>.alignLeft
      else f
    | none => f
  (f.newLine.drawLine '-' |>.alignCenter
    |>.println "Thank you for your order!"
    |>.println "Please visit again soon"
    |>.newLine |>.cutMark).generateText

end IndexJs


/-! Further string lemmas used by the claim proofs. -/

theorem strAppend_assoc (a b c : String) : (a ++ b) ++ c = a ++ (b ++ c) := by
  apply String.ext
  show (a.data ++ b.data) ++ c.data = a.data ++ (b.data ++ c.data)
  simp

theorem strEmpty_append (a : String) : "" ++ a = a := by
  apply String.ext
  show [] ++ a.data = a.data
  simp

theorem strAppend_empty (a : String) : a ++ "" = a := by
  apply String.ext
  show a.data ++ [] = a.data
  simp

theorem isSubstr_of_eq {p s : String} (x y : String) (h : s = x ++ p ++ y) :
    IsSubstr p s := h ▸ isSubstr_middle x p y

theorem isSubstr_of_eq_suffix {p s : String} (x : String) (h : s = x ++ p) :
    IsSubstr p s := h ▸ isSubstr_right_self x p

theorem isSubstr_two_prefix (a b t : String) : IsSubstr (a ++ b) (a ++ (b ++ t)) := by
  unfold IsSubstr
  refine ⟨[], t.data, ?_⟩
  show [] ++ ((a ++ b).data ++ t.data) = (a ++ (b ++ t)).data
  show [] ++ ((a.data ++ b.data) ++ t.data) = a.data ++ (b.data ++ t.data)
  simp

theorem strJoin_append (a b : List String) :
    strJoin (a ++ b) = strJoin a ++ strJoin b := by
  induction a with
  | nil => simp [strJoin, strEmpty_append]
  | cons x xs ih => simp [strJoin, ih, strAppend_assoc]

namespace IndexJs

theorem centerPad_eq (L : Nat) : centerPad L = (48 - L) / 2 := by
  unfold centerPad
  rw [Int.fdiv_eq_ediv _ (by omega)]
  omega

theorem rightPad_eq (L : Nat) : rightPad L = 48 - L := by
  unfold rightPad
  omega

theorem visibleLength_println {s : String} (h : '\n' ∉ s.data) :
    visibleLength (s ++ "\n") = s.length := by
  unfold visibleLength
  show (removeFirstNewline (s.data ++ ['\n'])).length = s.length
  rw [removeFirstNewline_append_nl h]
  rfl

end IndexJs

/-! Concrete supporting values for witnesses and counterexamples. -/

/-- A QR encoder oracle that always fails. -/
def encNone : Server.QrEnc := fun _ _ => none

/-- A QR encoder oracle that always succeeds with a fixed ASCII block. -/
def encFixed : Server.QrEnc := fun _ _ => some "##QR##"

/-! ### Claim C10 -/

/-- A QR encoder oracle that succeeds only at the numeric medium width. -/
def encMediumOnly : Server.QrEnc := fun _ w =>
  if w = .num 128 then some "##QR##" else none

/-- Counterexample to C10: the size class `"constructor"` lies outside
`{small, medium, large}`, but `qrSizes["constructor"]` finds the inherited
`Object.prototype` member — a truthy value — so the `|| qrSizes.medium`
fallback does not fire and the width passed to the QR library is not the
medium 128.  Hence the output does not equal the `size = medium` output for
every encoder outcome: an encoder whose result at the inherited width
differs from its result at 128 separates the two runs. -/
theorem c10_counterexample :
    Server.qrSizeOf (some "constructor") = .proto "constructor" ∧
    Server.qrSizeOf (some "constructor") ≠ Server.qrSizeOf (some "medium") ∧
    Server.generateThermalQR encMediumOnly "x" (some "constructor") ≠
      Server.generateThermalQR encMediumOnly "x" (some "medium") := by
  refine ⟨by decide, by decide, by decide⟩

/-- C10 as amended: for every size class outside `{small, medium, large}`
that does not name an `Object.prototype` member (and for an absent size),
the QR generator does not fail and silently uses the medium width 128, so
its output equals the output for `size = medium` for every content string
and every encoder outcome; for a size class naming an `Object.prototype`
member the inherited truthy value is passed as the width instead. -/
theorem c10_size_fallback (enc : Server.QrEnc) (content : String)
    (size : Option String)
    (h : ∀ s, size = some s →
      s ≠ "small" ∧ s ≠ "medium" ∧ s ≠ "large" ∧ s ∉ Server.objectProtoKeys) :
    Server.generateThermalQR enc content size =
      Server.generateThermalQR enc content (some "medium") := by
  unfold Server.generateThermalQR Server.qrSizeOf
  cases size with
  | none => simp
  | some s =>
    obtain ⟨h1, h2, h3, h4⟩ := h s rfl
    simp [h1, h2, h3, h4]

/-- Witness for C10 (amended) at the concrete size class `"huge"` (and at an
absent size), with a failing encoder so the fallback text is exercised. -/
theorem c10_witness :
    Server.generateThermalQR encNone "x" (some "huge") =
      Server.generateThermalQR encNone "x" (some "medium") ∧
    Server.generateThermalQR encFixed "x" none =
      Server.generateThermalQR encFixed "x" (some "medium") :=
  ⟨c10_size_fallback encNone "x" (some "huge")
      (by intro s hs; cases hs
          refine ⟨by decide, by decide, by decide, by decide⟩),
    c10_size_fallback encFixed "x" none
      (by intro s hs; cases hs)⟩

/-! ### Claim C2 -/

/-- Counterexample to C2: an environment in which the `PRINTING` status
update throws before any rendering work.  The claim says the job is then
left untouched (no `FAILED` report, retried on the next tick); the code's
catch handler instead issues a `FAILED` status update, which here succeeds.
The run's update sequence is exactly `PRINTING` (failed) then `FAILED`
(succeeded), so a terminal `FAILED` status is reported for the job. -/
theorem c2_counterexample :
    Server.processPrintJob ⟨true, false, some "receipt", none, false⟩ =
      [⟨.PRINTING, false⟩, ⟨.FAILED, true⟩] ∧
    (⟨.FAILED, true⟩ : Server.Update) ∈
      Server.processPrintJob ⟨true, false, some "receipt", none, false⟩ := by
  constructor
  · rfl
  · decide

/-- C2 as amended: when the status update that marks the job `PRINTING`
fails, `processPrintJob` does not leave the job untouched — its catch
handler immediately attempts to report the job `FAILED` (that report
succeeds unless the `FAILED` update itself also throws); no rendering or
printing happens in that run. -/
theorem c2_amended (env : Server.JobEnv) (h : env.markPrintingThrows = true) :
    Server.processPrintJob env =
      [⟨.PRINTING, false⟩, ⟨.FAILED, !env.markFailedThrows⟩] := by
  unfold Server.processPrintJob
  rw [h]
  simp

/-- Witness for C2 (amended) at a concrete environment. -/
theorem c2_witness :
    Server.processPrintJob ⟨true, false, none, none, true⟩ =
      [⟨.PRINTING, false⟩, ⟨.FAILED, false⟩] :=
  c2_amended ⟨true, false, none, none, true⟩ rfl

/-! ### Claim C3 -/

/-- Counterexample to C3: with both delivery methods failing (thermal init
fails with `'Failed to initialize printer'`, the Windows fallback rejects
with `'print command failed'`), the `/print/kitchen` response carries only
the single last error message — not one entry per configured method in
order, as the claim requires. -/
theorem c3_counterexample :
    Thermal.printKitchen (some ["Chicken Tikka"])
        ⟨true, false, some "print command failed"⟩ =
      .failure "print command failed" ∧
    Thermal.errorsOf
        (Thermal.printKitchen (some ["Chicken Tikka"])
          ⟨true, false, some "print command failed"⟩) =
      ["print command failed"] ∧
    ["print command failed"] ≠
      ["Failed to initialize printer", "print command failed"] := by
  refine ⟨rfl, rfl, by decide⟩

/-- C3 as amended: when every configured method fails, the route's failure
response carries only the final (Windows) method's error message; the
thermal method's error is discarded (only logged), so the error list is the
singleton of the last error rather than one entry per method. -/
theorem c3_amended (items : List String) (env : Thermal.DispatchEnv)
    (m1 m2 : String) (h1 : Thermal.thermalError env = some m1)
    (h2 : env.windowsError = some m2) :
    Thermal.printKitchen (some items) env = .failure m2 ∧
    Thermal.errorsOf (Thermal.printKitchen (some items) env) = [m2] := by
  unfold Thermal.printKitchen
  rw [h1, h2]
  exact ⟨rfl, rfl⟩

/-- Witness for C3 (amended) at a concrete environment. -/
theorem c3_witness :
    Thermal.printKitchen (some ["Naan"]) ⟨false, false, some "offline"⟩ =
      .failure "offline" ∧
    Thermal.errorsOf
        (Thermal.printKitchen (some ["Naan"]) ⟨false, false, some "offline"⟩) =
      ["offline"] :=
  c3_amended ["Naan"] ⟨false, false, some "offline"⟩
    "Thermal printer not connected" "offline" rfl rfl

/-! ### Claim C1 -/

/-- Counterexample to C1: a customer-receipt input supplying
`subtotal = £1.00` and `total = £7.00` alongside one line item of 3 × £2.00.
The claim says the printed subtotal and grand total are exactly the supplied
values, only formatted, and are not derived by summing quantity × unit
price; the rendered receipt instead shows the recomputed `Subtotal: £6.00`
and `TOTAL: £6.00`, and neither supplied figure appears. -/
theorem c1_counterexample :
    IsSubstr "Subtotal: £6.00"
      (Server.formatReceiptCustomer "NOW"
        ⟨none, some [⟨some "Curry", some 200, some 3⟩], none, none,
          some 100, some 700⟩) ∧
    ¬ IsSubstr "Subtotal: £1.00"
      (Server.formatReceiptCustomer "NOW"
        ⟨none, some [⟨some "Curry", some 200, some 3⟩], none, none,
          some 100, some 700⟩) ∧
    ¬ IsSubstr "TOTAL: £7.00"
      (Server.formatReceiptCustomer "NOW"
        ⟨none, some [⟨some "Curry", some 200, some 3⟩], none, none,
          some 100, some 700⟩) := by
  refine ⟨by decide, by decide, by decide⟩

/-- C1 as amended: the simple customer-receipt formatter ignores any
supplied subtotal / grand-total fields (the output is invariant under them)
and recomputes: the printed subtotal is the sum of quantity × unit price
over the line items, the printed grand total is that sum plus the supplied
tax and delivery fee, and only the tax (like the delivery fee) is printed
exactly as supplied, merely formatted. -/
theorem c1_totals_recomputed (now : String) (d : Server.ReceiptData)
    (items : List Server.SItem) (s t : Option Int) (h : d.items = some items) :
    Server.formatReceiptCustomer now { d with subtotal := s, total := t } =
      Server.formatReceiptCustomer now d ∧
    IsSubstr ("Subtotal: £" ++ toFixed2 (Server.itemsSubtotal items))
      (Server.formatReceiptCustomer now d) ∧
    IsSubstr ("TOTAL: £" ++ toFixed2 (Server.itemsSubtotal items +
        d.tax.getD 0 + d.deliveryFee.getD 0))
      (Server.formatReceiptCustomer now d) ∧
    (∀ tv, d.tax = some tv → tv ≠ 0 →
      IsSubstr ("Tax: £" ++ toFixed2 tv)
        (Server.formatReceiptCustomer now d)) := by
  refine ⟨rfl, ?_, ?_, ?_⟩
  · apply isSubstr_of_eq
      ("COTTAGE TANDOORI\n" ++ "123 Restaurant Street\n" ++
        "Phone: (555) 123-4567\n" ++ "================================\n" ++
        "Order #" ++ strOr d.orderNumber "N/A" ++ "\n" ++ now ++ "\n" ++
        "--------------------------------\n" ++
        strJoin (items.map Server.sItemLine) ++
        "--------------------------------\n")
      ("\n" ++
        (if intTruthy d.tax then
          "Tax: £" ++ toFixed2 (d.tax.getD 0) ++ "\n" else "") ++
        (if intTruthy d.deliveryFee then
          "Delivery: £" ++ toFixed2 (d.deliveryFee.getD 0) ++ "\n" else "") ++
        "TOTAL: £" ++ toFixed2 (Server.itemsSubtotal items +
          d.tax.getD 0 + d.deliveryFee.getD 0) ++ "\n" ++
        "================================\n" ++
        "Thank you for your order!\n" ++ "Visit us again soon!\n")
    simp only [Server.formatReceiptCustomer, h, strAppend_assoc]
  · apply isSubstr_of_eq
      ("COTTAGE TANDOORI\n" ++ "123 Restaurant Street\n" ++
        "Phone: (555) 123-4567\n" ++ "================================\n" ++
        "Order #" ++ strOr d.orderNumber "N/A" ++ "\n" ++ now ++ "\n" ++
        "--------------------------------\n" ++
        strJoin (items.map Server.sItemLine) ++
        "--------------------------------\n" ++
        "Subtotal: £" ++ toFixed2 (Server.itemsSubtotal items) ++ "\n" ++
        (if intTruthy d.tax then
          "Tax: £" ++ toFixed2 (d.tax.getD 0) ++ "\n" else "") ++
        (if intTruthy d.deliveryFee then
          "Delivery: £" ++ toFixed2 (d.deliveryFee.getD 0) ++ "\n" else ""))
      ("\n" ++ "================================\n" ++
        "Thank you for your order!\n" ++ "Visit us again soon!\n")
    simp only [Server.formatReceiptCustomer, h, strAppend_assoc]
  · intro tv htv hne
    have ht : intTruthy (some tv) = true := by
      simp only [intTruthy]
      exact bne_iff_ne.mpr hne
    apply isSubstr_of_eq
      ("COTTAGE TANDOORI\n" ++ "123 Restaurant Street\n" ++
        "Phone: (555) 123-4567\n" ++ "================================\n" ++
        "Order #" ++ strOr d.orderNumber "N/A" ++ "\n" ++ now ++ "\n" ++
        "--------------------------------\n" ++
        strJoin (items.map Server.sItemLine) ++
        "--------------------------------\n" ++
        "Subtotal: £" ++ toFixed2 (Server.itemsSubtotal items) ++ "\n")
      ("\n" ++
        (if intTruthy d.deliveryFee then
          "Delivery: £" ++ toFixed2 (d.deliveryFee.getD 0) ++ "\n" else "") ++
        "TOTAL: £" ++ toFixed2 (Server.itemsSubtotal items +
          d.tax.getD 0 + d.deliveryFee.getD 0) ++ "\n" ++
        "================================\n" ++
        "Thank you for your order!\n" ++ "Visit us again soon!\n")
    simp only [Server.formatReceiptCustomer, h, htv, ht, if_true,
      Option.getD_some, strAppend_assoc]

/-- Witness for C1 (amended) at a concrete receipt input. -/
theorem c1_witness :
    Server.formatReceiptCustomer "NOW"
        ⟨none, some [⟨some "Curry", some 200, some 3⟩], some 170, none,
          some 100, some 700⟩ =
      Server.formatReceiptCustomer "NOW"
        ⟨none, some [⟨some "Curry", some 200, some 3⟩], some 170, none,
          none, none⟩ ∧
    IsSubstr ("Subtotal: £" ++
        toFixed2 (Server.itemsSubtotal [⟨some "Curry", some 200, some 3⟩]))
      (Server.formatReceiptCustomer "NOW"
        ⟨none, some [⟨some "Curry", some 200, some 3⟩], some 170, none,
          none, none⟩) ∧
    IsSubstr ("Tax: £" ++ toFixed2 170)
      (Server.formatReceiptCustomer "NOW"
        ⟨none, some [⟨some "Curry", some 200, some 3⟩], some 170, none,
          none, none⟩) := by
  obtain ⟨h1, h2, _, h4⟩ :=
    c1_totals_recomputed "NOW"
      ⟨none, some [⟨some "Curry", some 200, some 3⟩], some 170, none,
        none, none⟩
      [⟨some "Curry", some 200, some 3⟩] (some 100) (some 700) rfl
  exact ⟨h1, h2, h4 170 rfl (by decide)⟩

/-! ### Claim C4 -/

/-- Counterexample to C4: a rich template with only `address = "A"` and
`phone = "P"` set.  Both business-detail lines are consecutive rendered
segments with the same alignment (center) and the same emphasis (normal) —
no mode instruction is interposed by intent — yet the emitted stream
contains the alignment code `ESC a 1` between the first segment's text
(`"A"` plus its terminator) and the second segment's text (`"Tel: P"`), as
the full emitted stream shows. -/
theorem c4_counterexample :
    Server.processRichTemplate encNone
        { Server.emptyTemplate with address := some "A", phone := some "P" } =
      "\x1B@\x1B3\x18\x1Ba1A\n\x1Ba1Tel: P\n\n\x1Ba1================================\n\x1Ba0--------------------------------\n\x1BE1ITEMS:\n\x1BE0** ORDER ITEMS WILL BE INSERTED HERE **\n--------------------------------\n\x1Ba1================================\n\n\x1DV\x00" ∧
    IsSubstr ("A" ++ Server.FEED_LINE ++ Server.ALIGN_CENTER ++ "Tel: P")
      (Server.processRichTemplate encNone
        { Server.emptyTemplate with address := some "A", phone := some "P" }) := by
  refine ⟨by decide, by decide⟩

/-- C4 as amended: the rich-template emitter re-emits the `ALIGN_CENTER`
code before every present business-detail line unconditionally, so for two
consecutive centered, normal-emphasis segments (a present address followed
by a present phone) a redundant alignment mode-change instruction stands
between the first segment's text and the second's. -/
theorem c4_redundant_align (enc : Server.QrEnc) (a p : String)
    (ha : a.isEmpty = false) (hp : p.isEmpty = false) :
    IsSubstr (a ++ Server.FEED_LINE ++ Server.ALIGN_CENTER ++ "Tel: " ++ p)
      (Server.processRichTemplate enc
        { Server.emptyTemplate with address := some a, phone := some p }) := by
  apply isSubstr_of_eq
    (Server.INIT ++ Server.LINE_SPACING_24 ++ Server.ALIGN_CENTER)
    (Server.FEED_LINE ++ Server.FEED_LINE ++ Server.ALIGN_CENTER ++
      "================================" ++ Server.FEED_LINE ++
      Server.ALIGN_LEFT ++ "--------------------------------" ++
      Server.FEED_LINE ++ Server.BOLD_ON ++ "ITEMS:" ++ Server.FEED_LINE ++
      Server.BOLD_OFF ++ "** ORDER ITEMS WILL BE INSERTED HERE **" ++
      Server.FEED_LINE ++ "--------------------------------" ++
      Server.FEED_LINE ++ Server.ALIGN_CENTER ++
      "================================" ++ Server.FEED_LINE ++
      Server.FEED_LINE ++ Server.CUT)
  simp only [Server.processRichTemplate, Server.emptyTemplate,
    Server.headerSection, Server.businessDetails, Server.centeredLine,
    Server.orderInfo, Server.boldLine, Server.plainLine, strTruthy, ha, hp,
    Bool.not_false, List.map, strJoin, Option.getD_some,
    Bool.not_true, if_true, if_false, Bool.false_eq_true,
    strAppend_assoc, strEmpty_append, strAppend_empty]

/-- Witness for C4 (amended) at concrete address and phone strings. -/
theorem c4_witness :
    IsSubstr ("42 High St" ++ Server.FEED_LINE ++ Server.ALIGN_CENTER ++
        "Tel: " ++ "0123")
      (Server.processRichTemplate encFixed
        { Server.emptyTemplate with
            address := some "42 High St", phone := some "0123" }) :=
  c4_redundant_align encFixed "42 High St" "0123" rfl rfl

/-! ### Claim C5 -/

/-- Counterexample to C5: `formatKitchenTicket` of `src/index.js`, called on
an order whose item collection is present but empty, renders a ticket with
no `ITEMS:` heading at all — the claim says every rendered kitchen ticket
prints the literal heading even when the item collection is empty. -/
theorem c5_counterexample :
    ¬ IsSubstr "ITEMS:"
      (IndexJs.formatKitchenTicket "12:00:00" ⟨some "1", none, some [], none⟩) := by
  decide

/-- C5 as amended: the always-printed `ITEMS:` heading is a property of the
rich-template renderer only — `processRichTemplate` prints its literal
`ITEMS:` heading (with the placeholder line) for every template and every
encoder outcome — while `formatKitchenTicket` of `src/index.js` emits
nothing for an empty item collection: its output on an order with an empty
items array equals its output with the items section absent. -/
theorem c5_items_heading (enc : Server.QrEnc) (t : Server.TemplateData)
    (now : String) (o : IndexJs.OrderData) :
    IsSubstr "ITEMS:" (Server.processRichTemplate enc t) ∧
    IndexJs.formatKitchenTicket now { o with items := some [] } =
      IndexJs.formatKitchenTicket now { o with items := none } := by
  constructor
  · apply isSubstr_of_eq
      (Server.INIT ++ Server.LINE_SPACING_24 ++ Server.headerSection t ++
        Server.businessDetails t ++
        strJoin (t.header_qr_codes.map (Server.headerQrBlock enc)) ++
        Server.FEED_LINE ++ Server.ALIGN_CENTER ++
        "================================" ++ Server.FEED_LINE ++
        Server.ALIGN_LEFT ++ Server.orderInfo t ++
        "--------------------------------" ++ Server.FEED_LINE ++
        Server.BOLD_ON)
      (Server.FEED_LINE ++ Server.BOLD_OFF ++
        "** ORDER ITEMS WILL BE INSERTED HERE **" ++ Server.FEED_LINE ++
        "--------------------------------" ++ Server.FEED_LINE ++
        Server.centeredLine "" t.footer_message ++
        strJoin (t.footer_qr_codes.map (Server.footerQrBlock enc)) ++
        Server.centeredLine "VAT: " t.vat_number ++ Server.ALIGN_CENTER ++
        "================================" ++ Server.FEED_LINE ++
        Server.FEED_LINE ++ Server.CUT)
    simp only [Server.processRichTemplate, strAppend_assoc]
  · rfl

/-- Witness for C5 (amended) at a concrete template and order. -/
theorem c5_witness :
    IsSubstr "ITEMS:" (Server.processRichTemplate encNone Server.emptyTemplate) ∧
    IndexJs.formatKitchenTicket "12:00:00"
        ⟨some "1", none, some [], none⟩ =
      IndexJs.formatKitchenTicket "12:00:00" ⟨some "1", none, none, none⟩ :=
  c5_items_heading encNone Server.emptyTemplate "12:00:00"
    ⟨some "1", none, some [], none⟩

/-! ### Claim C9 -/

/-- C9: for every QR specification of a template — in the header zone or the
footer zone — that is enabled and has content, if the external encoder fails
on it, rendering does not abort: the element is replaced by the textual
fallback line (`[QR: ` followed by the first 20 characters of the QR content
and `...]`), and the rest of the receipt is still rendered, witnessed by the
trailing cut instruction that ends the emitted stream. -/
theorem c9_qr_fallback (enc : Server.QrEnc) (t : Server.TemplateData)
    (qr : Server.QRSpec)
    (h₁ : qr ∈ t.header_qr_codes ∨ qr ∈ t.footer_qr_codes)
    (h₂ : qr.enabled = true) (h₃ : qr.content.isEmpty = false)
    (h₄ : enc qr.content (Server.qrSizeOf qr.size) = none) :
    IsSubstr ("[QR: " ++ takeStr 20 qr.content ++ "...]")
      (Server.processRichTemplate enc t) ∧
    IsSubstr Server.CUT (Server.processRichTemplate enc t) := by
  have hfall : IsSubstr ("[QR: " ++ takeStr 20 qr.content ++ "...]")
      (Server.processRichTemplate enc t) := by
    rcases h₁ with hmem | hmem
    · have hblock : IsSubstr ("[QR: " ++ takeStr 20 qr.content ++ "...]")
          (Server.headerQrBlock enc qr) := by
        apply isSubstr_of_eq
          (Server.FEED_LINE ++ Server.ALIGN_CENTER ++ "--- " ++
            asciiUpper qr.type ++ " QR CODE ---" ++ Server.FEED_LINE)
          (Server.FEED_LINE ++
            (if qr.content.length < 50 then
              "Content: " ++ qr.content ++ Server.FEED_LINE
            else ""))
        simp only [Server.headerQrBlock, h₂, h₃, Bool.not_false, Bool.and_self,
          if_true, Server.generateThermalQR, h₄, strAppend_assoc]
      have hjoin : IsSubstr (Server.headerQrBlock enc qr)
          (strJoin (t.header_qr_codes.map (Server.headerQrBlock enc))) :=
        strJoin_substr_of_mem (Server.headerQrBlock enc) hmem
      have hproc : IsSubstr
          (strJoin (t.header_qr_codes.map (Server.headerQrBlock enc)))
          (Server.processRichTemplate enc t) := by
        apply isSubstr_of_eq
          (Server.INIT ++ Server.LINE_SPACING_24 ++ Server.headerSection t ++
            Server.businessDetails t)
          (Server.FEED_LINE ++ Server.ALIGN_CENTER ++
            "================================" ++ Server.FEED_LINE ++
            Server.ALIGN_LEFT ++ Server.orderInfo t ++
            "--------------------------------" ++ Server.FEED_LINE ++
            Server.BOLD_ON ++ "ITEMS:" ++ Server.FEED_LINE ++ Server.BOLD_OFF ++
            "** ORDER ITEMS WILL BE INSERTED HERE **" ++ Server.FEED_LINE ++
            "--------------------------------" ++ Server.FEED_LINE ++
            Server.centeredLine "" t.footer_message ++
            strJoin (t.footer_qr_codes.map (Server.footerQrBlock enc)) ++
            Server.centeredLine "VAT: " t.vat_number ++ Server.ALIGN_CENTER ++
            "================================" ++ Server.FEED_LINE ++
            Server.FEED_LINE ++ Server.CUT)
        simp only [Server.processRichTemplate, strAppend_assoc]
      exact isSubstr_trans (isSubstr_trans hblock hjoin) hproc
    · have hblock : IsSubstr ("[QR: " ++ takeStr 20 qr.content ++ "...]")
          (Server.footerQrBlock enc qr) := by
        apply isSubstr_of_eq
          (Server.FEED_LINE ++ Server.ALIGN_CENTER ++ "--- " ++
            asciiUpper qr.type ++ " QR ---" ++ Server.FEED_LINE)
          (Server.FEED_LINE ++
            (if qr.content.length < 30 then qr.content ++ Server.FEED_LINE
             else ""))
        simp only [Server.footerQrBlock, h₂, h₃, Bool.not_false, Bool.and_self,
          if_true, Server.generateThermalQR, h₄, strAppend_assoc]
      have hjoin : IsSubstr (Server.footerQrBlock enc qr)
          (strJoin (t.footer_qr_codes.map (Server.footerQrBlock enc))) :=
        strJoin_substr_of_mem (Server.footerQrBlock enc) hmem
      have hproc : IsSubstr
          (strJoin (t.footer_qr_codes.map (Server.footerQrBlock enc)))
          (Server.processRichTemplate enc t) := by
        apply isSubstr_of_eq
          (Server.INIT ++ Server.LINE_SPACING_24 ++ Server.headerSection t ++
            Server.businessDetails t ++
            strJoin (t.header_qr_codes.map (Server.headerQrBlock enc)) ++
            Server.FEED_LINE ++ Server.ALIGN_CENTER ++
            "================================" ++ Server.FEED_LINE ++
            Server.ALIGN_LEFT ++ Server.orderInfo t ++
            "--------------------------------" ++ Server.FEED_LINE ++
            Server.BOLD_ON ++ "ITEMS:" ++ Server.FEED_LINE ++ Server.BOLD_OFF ++
            "** ORDER ITEMS WILL BE INSERTED HERE **" ++ Server.FEED_LINE ++
            "--------------------------------" ++ Server.FEED_LINE ++
            Server.centeredLine "" t.footer_message)
          (Server.centeredLine "VAT: " t.vat_number ++ Server.ALIGN_CENTER ++
            "================================" ++ Server.FEED_LINE ++
            Server.FEED_LINE ++ Server.CUT)
        simp only [Server.processRichTemplate, strAppend_assoc]
      exact isSubstr_trans (isSubstr_trans hblock hjoin) hproc
  refine ⟨hfall, ?_⟩
  apply isSubstr_of_eq_suffix
    (Server.INIT ++ Server.LINE_SPACING_24 ++ Server.headerSection t ++
      Server.businessDetails t ++
      strJoin (t.header_qr_codes.map (Server.headerQrBlock enc)) ++
      Server.FEED_LINE ++ Server.ALIGN_CENTER ++
      "================================" ++ Server.FEED_LINE ++
      Server.ALIGN_LEFT ++ Server.orderInfo t ++
      "--------------------------------" ++ Server.FEED_LINE ++
      Server.BOLD_ON ++ "ITEMS:" ++ Server.FEED_LINE ++ Server.BOLD_OFF ++
      "** ORDER ITEMS WILL BE INSERTED HERE **" ++ Server.FEED_LINE ++
      "--------------------------------" ++ Server.FEED_LINE ++
      Server.centeredLine "" t.footer_message ++
      strJoin (t.footer_qr_codes.map (Server.footerQrBlock enc)) ++
      Server.centeredLine "VAT: " t.vat_number ++ Server.ALIGN_CENTER ++
      "================================" ++ Server.FEED_LINE ++
      Server.FEED_LINE)
  simp only [Server.processRichTemplate, strAppend_assoc]

/-- Witness for C9 at concrete templates: one with an enabled header QR and
one with an enabled footer QR, both with a failing encoder. -/
theorem c9_witness :
    (IsSubstr ("[QR: " ++ takeStr 20 "https://example.com" ++ "...]")
      (Server.processRichTemplate encNone
        { Server.emptyTemplate with
            header_qr_codes := [⟨"menu", "https://example.com", some "small", true⟩] }) ∧
    IsSubstr Server.CUT
      (Server.processRichTemplate encNone
        { Server.emptyTemplate with
            header_qr_codes := [⟨"menu", "https://example.com", some "small", true⟩] })) ∧
    (IsSubstr ("[QR: " ++ takeStr 20 "https://example.com/pay" ++ "...]")
      (Server.processRichTemplate encNone
        { Server.emptyTemplate with
            footer_qr_codes := [⟨"payment", "https://example.com/pay", none, true⟩] }) ∧
    IsSubstr Server.CUT
      (Server.processRichTemplate encNone
        { Server.emptyTemplate with
            footer_qr_codes := [⟨"payment", "https://example.com/pay", none, true⟩] })) :=
  ⟨c9_qr_fallback encNone
      { Server.emptyTemplate with
          header_qr_codes := [⟨"menu", "https://example.com", some "small", true⟩] }
      ⟨"menu", "https://example.com", some "small", true⟩
      (Or.inl (List.mem_singleton.mpr rfl)) rfl rfl rfl,
    c9_qr_fallback encNone
      { Server.emptyTemplate with
          footer_qr_codes := [⟨"payment", "https://example.com/pay", none, true⟩] }
      ⟨"payment", "https://example.com/pay", none, true⟩
      (Or.inr (List.mem_singleton.mpr rfl)) rfl rfl rfl⟩

/-! ### Claim C8 -/

theorem spacesStr_zero : spacesStr 0 = "" := rfl

/-- C8: the layout engine's only paper-width profile is its hard-coded
48-column count; for every text of visible length `L ≤ 48`, a center-aligned
line is padded with exactly `⌊(48 − L) / 2⌋` leading spaces, and a
right-aligned line with exactly `48 − L` leading spaces (the `Math.max(0, ·)`
clamp is inactive for `L ≤ 48`). -/
theorem c8_padding (s : String) (h₁ : '\n' ∉ s.data) (h₂ : s.length ≤ 48) :
    IndexJs.Fmt.generateText ((IndexJs.Fmt.new.init.alignCenter).println s) =
      spacesStr ((48 - s.length) / 2) ++ (s ++ "\n") ∧
    IndexJs.Fmt.generateText ((IndexJs.Fmt.new.init.alignRight).println s) =
      spacesStr (48 - s.length) ++ (s ++ "\n") := by
  constructor
  · simp [IndexJs.Fmt.generateText, IndexJs.Fmt.new, IndexJs.Fmt.init,
      IndexJs.Fmt.alignCenter, IndexJs.Fmt.println, IndexJs.Fmt.text,
      strJoin, IndexJs.renderItem, IndexJs.visibleLength_println h₁,
      IndexJs.centerPad_eq, strAppend_empty, strAppend_assoc]
  · simp [IndexJs.Fmt.generateText, IndexJs.Fmt.new, IndexJs.Fmt.init,
      IndexJs.Fmt.alignRight, IndexJs.Fmt.println, IndexJs.Fmt.text,
      strJoin, IndexJs.renderItem, IndexJs.visibleLength_println h₁,
      IndexJs.rightPad_eq, strAppend_empty, strAppend_assoc]

/-- Witness for C8 at the concrete text `"Hello"` (L = 5, so 21 leading
spaces centered and 43 right-aligned). -/
theorem c8_witness :
    IndexJs.Fmt.generateText
        ((IndexJs.Fmt.new.init.alignCenter).println "Hello") =
      spacesStr 21 ++ ("Hello" ++ "\n") ∧
    IndexJs.Fmt.generateText
        ((IndexJs.Fmt.new.init.alignRight).println "Hello") =
      spacesStr 43 ++ ("Hello" ++ "\n") :=
  c8_padding "Hello" (by decide) (by decide)

/-! ### Claim C6 -/

/-- A 50-character center-aligned text containing spaces, used to refute the
wrap-on-overflow behaviour of C6. -/
def s50 : String := "AAAAAAAAAAAAAAAAAAAA BBBBBBBBBBBBBBBBBBBB CCCCCCCC"

/-- Counterexample to C6: a center-aligned text of visible length 50 on the
48-column engine.  The claim says the engine wraps it onto additional lines
at the nearest preceding space (spaces are available here).  Instead the
engine emits the text unchanged — the output equals the input line, and the
rendered output contains a line longer than 48 columns, so no wrapping (and
no hard break) happened. -/
theorem c6_counterexample :
    IndexJs.Fmt.generateText ((IndexJs.Fmt.new.init.alignCenter).println s50) =
      s50 ++ "\n" ∧
    (splitLines
        (IndexJs.Fmt.generateText
          ((IndexJs.Fmt.new.init.alignCenter).println s50)).data).any
      (fun l => decide (48 < l.length)) = true := by
  refine ⟨by decide, by decide⟩

/-- C6 as amended: the engine indeed never truncates, but it does not wrap
either — for every center-aligned, normal-emphasis text whose visible
length exceeds the 48-column budget, `generateText` emits the text
unchanged on a single over-long line (the center padding clamps to zero). -/
theorem c6_no_wrap (s : String) (h₁ : '\n' ∉ s.data) (h₂ : 48 < s.length) :
    IndexJs.Fmt.generateText ((IndexJs.Fmt.new.init.alignCenter).println s) =
      s ++ "\n" := by
  have hpad : IndexJs.centerPad s.length = 0 := by
    rw [IndexJs.centerPad_eq, Nat.sub_eq_zero_of_le (Nat.le_of_lt h₂)]
  simp [IndexJs.Fmt.generateText, IndexJs.Fmt.new, IndexJs.Fmt.init,
    IndexJs.Fmt.alignCenter, IndexJs.Fmt.println, IndexJs.Fmt.text,
    strJoin, IndexJs.renderItem, IndexJs.visibleLength_println h₁, hpad,
    spacesStr_zero, strEmpty_append, strAppend_empty]

/-- Witness for C6 (amended) at the 50-character text. -/
theorem c6_witness :
    ('\n' ∉ s50.data ∧ 48 < s50.length) ∧
    IndexJs.Fmt.generateText ((IndexJs.Fmt.new.init.alignCenter).println s50) =
      s50 ++ "\n" :=
  ⟨⟨by decide, by decide⟩, c6_no_wrap s50 (by decide) (by decide)⟩

/-! ### Claim C7 -/

/-- Rendering lemma: when two entries stand consecutively in a formatter's
content array, their renderings stand consecutively in the generated text. -/
theorem generateText_pair_substr (f : IndexJs.Fmt) (pre post : List IndexJs.PItem)
    (a b : IndexJs.PItem) (h : f.content = pre ++ a :: b :: post) :
    IsSubstr (IndexJs.renderItem a ++ IndexJs.renderItem b)
      (IndexJs.Fmt.generateText f) := by
  rw [IndexJs.Fmt.generateText, h, List.map_append, strJoin_append]
  apply isSubstr_append_left
  simp only [List.map, strJoin]
  exact isSubstr_two_prefix _ _ _

/-- The two-item example order of the specification scenario
(2 × Lamb Curry @ £6.50, 1 × Naan @ £2.00). -/
def exampleOrder : IndexJs.OrderData :=
  ⟨some "123", none,
    some [⟨"Lamb Curry", 2, some 650, none, none⟩,
      ⟨"Naan", 1, some 200, none, none⟩], none⟩

set_option maxHeartbeats 4000000 in
/-- Counterexample to C7, at the specification's own example scenario.  In
`formatCustomerReceipt` (src/index.js) the row `"2x Lamb Curry"` plus its
price `"£13.00"` fits comfortably in 48 columns, yet the price is printed on
its own right-aligned line beneath the name (42 leading spaces), and the
claimed same-line form never occurs; likewise for the Naan row.  In the
simple `formatReceipt` customer path (src/server.js) the price does share
the item's line, but separated by a single literal space — not
right-aligned to the 48-column edge. -/
theorem c7_counterexample :
    IsSubstr ("2x Lamb Curry\n" ++ spacesStr 42 ++ "£13.00\n")
      (IndexJs.formatCustomerReceipt "01/01/2026" "12:00:00" exampleOrder) ∧
    "2x Lamb Curry £13.00".length ≤ 48 ∧
    ¬ IsSubstr "2x Lamb Curry £13.00"
      (IndexJs.formatCustomerReceipt "01/01/2026" "12:00:00" exampleOrder) ∧
    IsSubstr ("1x Naan\n" ++ spacesStr 43 ++ "£2.00\n")
      (IndexJs.formatCustomerReceipt "01/01/2026" "12:00:00" exampleOrder) ∧
    IsSubstr "2x Lamb Curry £13.00\n"
      (Server.formatReceiptCustomer "NOW"
        ⟨none,
          some [⟨some "Lamb Curry", some 650, some 2⟩,
            ⟨some "Naan", some 200, some 1⟩], some 170, none, none, none⟩) := by
  simp only [isSubstr_iff_containsAt]
  refine ⟨by decide, by decide, by decide, by decide, by decide⟩

set_option maxHeartbeats 4000000 in
/-- C7 as amended: item rows never place a right-aligned price on the name's
line.  In `formatCustomerReceipt` (src/index.js) the price always moves to
its own right-aligned line beneath the `"{quantity}x {name}"` line,
regardless of whether the row would fit (shown for every one-item order);
in the simple customer path of `formatReceipt` (src/server.js) every item
row keeps the price on the same line but separated by a single space
(`sItemLine`), not right-aligned. -/
theorem c7_price_layout :
    (∀ (nowD nowT : String) (onum : Option String) (name : String)
        (q : Nat) (p : Int),
      IsSubstr
        (toString q ++ "x " ++ name ++ "\n" ++
          (spacesStr
              (IndexJs.rightPad
                (IndexJs.visibleLength
                  ("£" ++ toFixed2 ((some p).getD 0 * (qtyOr1 (some q) : Int)) ++ "\n"))) ++
            ("£" ++ toFixed2 ((some p).getD 0 * (qtyOr1 (some q) : Int)) ++ "\n")))
        (IndexJs.formatCustomerReceipt nowD nowT
          ⟨onum, none, some [⟨name, q, some p, none, none⟩], none⟩)) ∧
    (∀ (now : String) (d : Server.ReceiptData) (items : List Server.SItem)
        (it : Server.SItem), d.items = some items → it ∈ items →
      IsSubstr (Server.sItemLine it)
        (Server.formatReceiptCustomer now d)) := by
  constructor
  · intro nowD nowT onum name q p
    have hr :
        IndexJs.renderItem
          (.text ((toString q ++ "x " ++ name) ++ "\n") .left .normal false) ++
        IndexJs.renderItem
          (.text (("£" ++ toFixed2 ((some p).getD 0 * (qtyOr1 (some q) : Int))) ++ "\n")
            .right .normal false) =
        toString q ++ "x " ++ name ++ "\n" ++
          (spacesStr
              (IndexJs.rightPad
                (IndexJs.visibleLength
                  ("£" ++ toFixed2 ((some p).getD 0 * (qtyOr1 (some q) : Int)) ++ "\n"))) ++
            ("£" ++ toFixed2 ((some p).getD 0 * (qtyOr1 (some q) : Int)) ++ "\n")) := by
      simp only [IndexJs.renderItem, Bool.false_and, Bool.false_eq_true,
        if_false, strAppend_assoc]
    rw [← hr]
    exact generateText_pair_substr _
      [IndexJs.PItem.text ("COTTAGE TANDOORI" ++ "\n") .center .large true,
        .text ("Authentic Indian Cuisine" ++ "\n") .center .normal false,
        .text ("Tel: 01234 567890" ++ "\n") .center .normal false,
        .text (String.mk (List.replicate 48 '-') ++ "\n") .center .normal false,
        .text ("" ++ "\n") .left .normal false,
        .text (("Receipt #: " ++ strOr onum "N/A") ++ "\n") .left .normal false,
        .text (("Date: " ++ nowD) ++ "\n") .left .normal false,
        .text (("Time: " ++ nowT) ++ "\n") .left .normal false,
        .text (("Type: " ++ strOr none "DINE-IN") ++ "\n") .left .normal false,
        .text (String.mk (List.replicate 48 '-') ++ "\n") .left .normal false,
        .text ("" ++ "\n") .left .normal false]
      [IndexJs.PItem.text (String.mk (List.replicate 48 '-') ++ "\n") .left .normal false,
        .text (("TOTAL: £" ++
            toFixed2 (0 + (some p).getD 0 * (qtyOr1 (some q) : Int))) ++ "\n")
          .right .normal true,
        .text ("" ++ "\n") .left .normal false,
        .text (String.mk (List.replicate 48 '-') ++ "\n") .left .normal false,
        .text ("Thank you for your order!" ++ "\n") .center .normal false,
        .text ("Please visit again soon" ++ "\n") .center .normal false,
        .text ("" ++ "\n") .center .normal false,
        .cutMark]
      _ _ rfl
  · intro now d items it h hmem
    have h1 : IsSubstr (Server.sItemLine it)
        (strJoin (items.map Server.sItemLine)) :=
      strJoin_substr_of_mem Server.sItemLine hmem
    have h2 : IsSubstr (strJoin (items.map Server.sItemLine))
        (Server.formatReceiptCustomer now d) := by
      apply isSubstr_of_eq
        ("COTTAGE TANDOORI\n" ++ "123 Restaurant Street\n" ++
          "Phone: (555) 123-4567\n" ++ "================================\n" ++
          "Order #" ++ strOr d.orderNumber "N/A" ++ "\n" ++ now ++ "\n" ++
          "--------------------------------\n")
        ("--------------------------------\n" ++
          "Subtotal: £" ++ toFixed2 (Server.itemsSubtotal items) ++ "\n" ++
          (if intTruthy d.tax then
            "Tax: £" ++ toFixed2 (d.tax.getD 0) ++ "\n" else "") ++
          (if intTruthy d.deliveryFee then
            "Delivery: £" ++ toFixed2 (d.deliveryFee.getD 0) ++ "\n" else "") ++
          "TOTAL: £" ++ toFixed2 (Server.itemsSubtotal items +
            d.tax.getD 0 + d.deliveryFee.getD 0) ++ "\n" ++
          "================================\n" ++
          "Thank you for your order!\n" ++ "Visit us again soon!\n")
      simp only [Server.formatReceiptCustomer, h, strAppend_assoc]
    exact isSubstr_trans h1 h2

/-- Witness for C7 (amended) at a concrete one-item order (1 × Naan @ £2.00)
on both formatters. -/
theorem c7_witness :
    IsSubstr
      (toString 1 ++ "x " ++ "Naan" ++ "\n" ++
        (spacesStr
            (IndexJs.rightPad
              (IndexJs.visibleLength
                ("£" ++ toFixed2 ((some (200 : Int)).getD 0 * (qtyOr1 (some 1) : Int)) ++ "\n"))) ++
          ("£" ++ toFixed2 ((some (200 : Int)).getD 0 * (qtyOr1 (some 1) : Int)) ++ "\n")))
      (IndexJs.formatCustomerReceipt "D" "T"
        ⟨some "9", none, some [⟨"Naan", 1, some 200, none, none⟩], none⟩) ∧
    IsSubstr (Server.sItemLine ⟨some "Naan", some 200, some 1⟩)
      (Server.formatReceiptCustomer "NOW"
        ⟨none, some [⟨some "Naan", some 200, some 1⟩], none, none, none, none⟩) :=
  ⟨c7_price_layout.1 "D" "T" (some "9") "Naan" 1 200,
    c7_price_layout.2 "NOW"
      ⟨none, some [⟨some "Naan", some 200, some 1⟩], none, none, none, none⟩
      [⟨some "Naan", some 200, some 1⟩] ⟨some "Naan", some 200, some 1⟩ rfl
      (List.mem_singleton.mpr rfl)⟩
